import Mathlib

/-!
Verification of the "dreams-and-poems" video playback scheduler.

Shallow embedding of the `VideoManager` class from `src/js/app.js` and the
`ArrayUtils` / `UrlUtils` helpers from `src/js/utils.js`.  JavaScript arrays
become `List`, the `Map` caches keyed by URL become lists of keys, JavaScript
numbers used as playlist indices become `Int` (JavaScript `%` on integers is
the truncated remainder, `Int.tmod`), and the asynchronous load / crossfade
machinery is driven by explicit outcome parameters (`loadOk : Bool`) standing
for the external media events that resolve or reject each awaited promise.
-/

namespace DreamsAndPoems

/-! ### ArrayUtils (src/js/utils.js)

`ArrayUtils.shuffle` copies the array and runs the classic in-place
Fisher-Yates loop

  for (let i = shuffled.length - 1; i > 0; i--) \x7b
    const j = Math.floor(Math.random() * (i + 1));
    [shuffled[i], shuffled[j]] = [shuffled[j], shuffled[i]];
  \x7d

`Math.floor(Math.random() * (i + 1))` is an arbitrary integer in `[0, i]`; it
is modelled by an oracle `js : Nat → Nat` reduced mod `i + 1`, which realises
exactly the same set of choices. -/

namespace ArrayUtils

/-- The destructuring swap of two cells of a JavaScript array.  Inside the
shuffle loop both indices are always in bounds; the out-of-bounds branch only
makes the function total. -/
def listSwap {α : Type} (l : List α) (i j : Nat) : List α :=
  if h : i < l.length ∧ j < l.length then
    (l.set i (l.get ⟨j, h.2⟩)).set j (l.get ⟨i, h.1⟩)
  else l

/-- Descending Fisher-Yates loop: `fyAux js i l` performs the swaps for the
loop counter values `i, i-1, …, 1`. -/
def fyAux (js : Nat → Nat) : Nat → List α → List α
  | 0, l => l
  | i + 1, l => fyAux js i (listSwap l (i + 1) (js (i + 1) % (i + 2)))

/-- `ArrayUtils.shuffle`: copy the input and run the Fisher-Yates loop from
`length - 1` down to `1`. -/
def shuffle (js : Nat → Nat) (l : List α) : List α :=
  fyAux js (l.length - 1) l

theorem cons_set_perm {α : Type} :
    ∀ (t : List α) (k : Nat) (hk : k < t.length) (a : α),
      List.Perm (t.get ⟨k, hk⟩ :: t.set k a) (a :: t) := by
  intro t
  induction t with
  | nil => intro k hk a; simp at hk
  | cons y u ih =>
    intro k hk a
    cases k with
    | zero =>
      simpa using List.Perm.swap a y u
    | succ m =>
      have hm : m < u.length := by simpa using hk
      have h1 : List.Perm (u.get ⟨m, hm⟩ :: y :: u.set m a)
          (y :: u.get ⟨m, hm⟩ :: u.set m a) := List.Perm.swap y (u.get ⟨m, hm⟩) _
      have h2 : List.Perm (y :: u.get ⟨m, hm⟩ :: u.set m a) (y :: a :: u) :=
        List.Perm.cons y (ih m hm a)
      have h3 : List.Perm (y :: a :: u) (a :: y :: u) := List.Perm.swap a y u
      simpa using (h1.trans h2).trans h3

theorem set_set_perm {α : Type} :
    ∀ (l : List α) (i j : Nat) (hi : i < l.length) (hj : j < l.length),
      List.Perm ((l.set i (l.get ⟨j, hj⟩)).set j (l.get ⟨i, hi⟩)) l := by
  intro l
  induction l with
  | nil => intro i j hi hj; simp at hi
  | cons x t ih =>
    intro i j hi hj
    cases i with
    | zero =>
      cases j with
      | zero => simp
      | succ k =>
        have hk : k < t.length := by simpa using hj
        simpa using cons_set_perm t k hk x
    | succ m =>
      have hm : m < t.length := by simpa using hi
      cases j with
      | zero =>
        simpa using cons_set_perm t m hm x
      | succ k =>
        have hk : k < t.length := by simpa using hj
        simpa using List.Perm.cons x (ih m k hm hk)

theorem listSwap_perm {α : Type} (l : List α) (i j : Nat) :
    List.Perm (listSwap l i j) l := by
  unfold listSwap
  split
  · exact set_set_perm l i j (by assumption : i < l.length ∧ j < l.length).1
      (by assumption : i < l.length ∧ j < l.length).2
  · exact List.Perm.refl l

theorem fyAux_perm {α : Type} (js : Nat → Nat) :
    ∀ (i : Nat) (l : List α), List.Perm (fyAux js i l) l := by
  intro i
  induction i with
  | zero => intro l; exact List.Perm.refl l
  | succ i ih =>
    intro l
    exact (ih _).trans (listSwap_perm l (i + 1) (js (i + 1) % (i + 2)))

/-- The shuffled array is a permutation of the input. -/
theorem shuffle_perm {α : Type} (js : Nat → Nat) (l : List α) :
    List.Perm (shuffle js l) l :=
  fyAux_perm js (l.length - 1) l

end ArrayUtils

/-! ### UrlUtils / URL validity

`setVideoUrls` validates each entry with `typeof url !== 'string'`,
`!url.trim()` and `new URL(url)`.  The inputs are modelled as `String`s (the
`typeof` branch is vacuous) and `new URL` is a host builtin outside this
repository, so the validator is parameterised by an oracle
`parses : String → Bool` for it; a concrete stand-in is provided below for
evaluating witnesses and counterexamples. -/

/-- JavaScript `!url.trim()`: the string is empty after trimming exactly when
every character is whitespace.  Stated over the character list so that it
evaluates by kernel reduction. -/
def jsTrimmedEmpty (u : String) : Bool :=
  u.data.all (fun c => c.isWhitespace)

/-- Modelled from the spec: the browser's `new URL(url)` constructor, a host
builtin not present in this repository; the spec only requires each entry to
be "a syntactically valid URL".  This stand-in accepts absolute http(s) URLs
without spaces and rejects scheme-less strings; its verdicts agree with the
host parser on every concrete string used in this file. -/
def urlParses (u : String) : Bool :=
  (("http://".data).isPrefixOf u.data || ("https://".data).isPrefixOf u.data) &&
    !(u.data.contains ' ')

/-! ### VideoManager (src/js/app.js, lines 3657-4246) -/

namespace VideoManager

/-- Recognized configuration options (constructor, lines 3659-3666). -/
structure VMConfig where
  preloadBufferSize : Nat
  maxRetries : Nat
  retryDelay : Nat
  loadTimeout : Nat
  crossfadeDuration : Nat
deriving DecidableEq, Repr

/-- The constructor defaults: `preloadBufferSize` is 1 on mobile and 3 on
desktop (`DeviceUtils.isMobile()`), the rest are fixed numbers. -/
def defaultConfig (isMobile : Bool) : VMConfig :=
  { preloadBufferSize := if isMobile then 1 else 3
    maxRetries := 3
    retryDelay := 1000
    loadTimeout := 30000
    crossfadeDuration := 1500 }

/-- The two physical media elements `videoA` / `videoB` handed to
`initialize`; the scheduler refers to them through the mutable roles
`activeVideoElement` / `inactiveVideoElement`. -/
inductive Slot where
  | A
  | B
deriving DecidableEq, Repr

/-- The scheduler-owned mutable state of a `VideoManager` instance.  The two
`Map`s (`preloadedVideos`, `loadingPromises`) are modelled by their key lists
in insertion order; the values (detached media handles, promises) have no
further observable structure in the verified claims. -/
structure VMState where
  config : VMConfig
  videoUrls : List String
  currentIndex : Int
  activeVideoElement : Slot
  inactiveVideoElement : Slot
  isTransitioning : Bool
  preloadedVideos : List String
  loadingPromises : List String
  errorCount : Nat
deriving DecidableEq, Repr

/-- Constructor field `this.maxErrors = 10` (line 3676). -/
def maxErrors : Nat := 10

/-- JavaScript `Array.prototype.indexOf`: index of the first strictly equal
element, `-1` when absent (used at line 4042). -/
def jsIndexOf (l : List String) (x : String) : Int :=
  match l with
  | [] => -1
  | y :: t =>
    if y == x then 0
    else
      let r := jsIndexOf t x
      if r < 0 then -1 else r + 1

/-- JavaScript indexed array read `l[i]`: `undefined` (here `none`) for a
negative or out-of-range index. -/
def jsGetElem (l : List String) (i : Int) : Option String :=
  if h : 0 ≤ i ∧ i.toNat < l.length then some (l.get ⟨i.toNat, h.2⟩) else none

/-- Rejection-or-resolution summary of the `playVideo` promise. -/
inductive PlayResult where
  | ok
  | busyOrEmpty
  | loadFailed
deriving DecidableEq, Repr

/-- Result of `handleVideoError`: either it awaited `this.playNext()` (error
count over the ceiling) or it scheduled a `setTimeout` retry of the current
index after `config.retryDelay` milliseconds. -/
inductive ErrorAction where
  | forceNext
  | scheduleRetry (delayMs : Nat)
deriving DecidableEq, Repr

/-- `setVideoUrls(urls)` (lines 3711-3734): throws when the list is empty,
filters out entries that are blank or rejected by `new URL`, throws when no
entry survives, otherwise stores the Fisher-Yates shuffle of the survivors. -/
def setVideoUrls (parses : String → Bool) (js : Nat → Nat) (urls : List String) :
    Except String (List String) :=
  if urls.length == 0 then
    .error ("Invalid video URLs provided")
  else
    let validUrls := urls.filter (fun u => !(jsTrimmedEmpty u) && parses u)
    if validUrls.length == 0 then
      .error ("No valid video URLs found")
    else
      .ok (ArrayUtils.shuffle js validUrls)

/-- Wrapped forward playlist distance as computed at line 4043:
`(videoIndex - currentIndex + length) % length` with JavaScript `%`
(truncated remainder) and `videoIndex = videoUrls.indexOf(url)`. -/
def wrappedDistance (urls : List String) (cur : Int) (url : String) : Int :=
  (jsIndexOf urls url - cur + (urls.length : Int)).tmod (urls.length : Int)

/-- Distance of a cache entry from the cursor in a given state. -/
def preloadDistance (s : VMState) (url : String) : Int :=
  wrappedDistance s.videoUrls s.currentIndex url

/-- `cleanupPreloadQueue()` (lines 4038-4052): delete every cache entry whose
wrapped forward distance exceeds `config.preloadBufferSize`, unless the entry
is the current URL (`url !== currentUrl` guards the deletion).  Removing the
backing DOM node has no footprint in this state. -/
def cleanupPreloadQueue (s : VMState) : VMState :=
  let currentUrl := jsGetElem s.videoUrls s.currentIndex
  { s with preloadedVideos := s.preloadedVideos.filter (fun url =>
      !(decide (((s.config.preloadBufferSize : Int) < preloadDistance s url) ∧
        currentUrl ≠ some url))) }

/-- The synchronous part of the preload loop in `updatePreloadQueue` (lines
3980-3987): for `i = 1 … preloadBufferSize` compute
`nextIndex = (currentIndex + i) % videoUrls.length`, and when
`videoUrls[nextIndex]` is neither cached nor already loading, start
`preloadVideo(nextUrl)`, which synchronously registers the URL in
`loadingPromises` (line 4021) before awaiting the network.  Returns the list
of URLs whose preload was started, in loop order.  (An out-of-range
`nextIndex` would make `nextUrl` `undefined`, which is never cached and whose
doomed load never populates the cache; it is skipped here.) -/
def startPreloads (s : VMState) : List String :=
  (List.range s.config.preloadBufferSize).foldl (fun acc k =>
    let nextIndex := (s.currentIndex + ((k + 1 : Nat) : Int)).tmod (s.videoUrls.length : Int)
    match jsGetElem s.videoUrls nextIndex with
    | some url =>
      if s.preloadedVideos.contains url || (s.loadingPromises ++ acc).contains url then acc
      else acc ++ [url]
    | none => acc) []

/-- `updatePreloadQueue()` (lines 3975-3990): clean up the cache, then start
the missing preloads.  The started loads complete asynchronously (see
`finishPreload`), so at return the cache is exactly the cleaned cache; only
`loadingPromises` has grown. -/
def updatePreloadQueue (s : VMState) : VMState × List String :=
  let s₁ := cleanupPreloadQueue s
  let started := startPreloads s₁
  ({ s₁ with loadingPromises := s₁.loadingPromises ++ started }, started)

/-- Asynchronous completion of a `preloadVideo(url)` started earlier: on
success the handle is stored in the cache (`Map.set`, a no-op on the key list
when the key is already present) and the loading entry is removed; on failure
only the loading entry is removed (lines 4025-4032). -/
def finishPreload (s : VMState) (url : String) (ok : Bool) : VMState :=
  if ok then
    { s with
      preloadedVideos :=
        if s.preloadedVideos.contains url then s.preloadedVideos
        else s.preloadedVideos ++ [url]
      loadingPromises := s.loadingPromises.erase url }
  else
    { s with loadingPromises := s.loadingPromises.erase url }

/-- Completion step of `crossfade()` (lines 3948-3960): swap the
active/inactive roles.  Pausing the now-inactive element and rebinding the
event listeners touch only the media elements, not this state. -/
def crossfade (s : VMState) : VMState :=
  { s with
    activeVideoElement := s.inactiveVideoElement
    inactiveVideoElement := s.activeVideoElement }

/-- `handleVideoError(video, error)` (lines 4068-4093): increment the error
counter; if it now exceeds `maxErrors`, call `playNext()` (reported as
`ErrorAction.forceNext`, interpreted at each call site); otherwise schedule a
retry of the current index after `config.retryDelay` ms
(`ErrorAction.scheduleRetry`), whose later firing is `retryTimerFired`. -/
def handleVideoError (s : VMState) : VMState × ErrorAction :=
  let s' := { s with errorCount := s.errorCount + 1 }
  if maxErrors < s'.errorCount then
    (s', .forceNext)
  else
    (s', .scheduleRetry s.config.retryDelay)

/-- `playVideo(index)` (lines 3843-3872).  `loadOk` is the outcome of the
awaited load of the inactive element (`usePreloadedVideo` setup within its 5 s
timeout, or `loadNewVideo` within `config.loadTimeout`); both load paths
mutate only the media elements.  On load failure the `catch` block runs
`handleVideoError(this.inactiveVideoElement, error)`; at this call site
`isTransitioning` is still `true`, so the over-ceiling `playNext()` inside it
hits `playVideo`'s guard and changes nothing.  The `finally` block always
clears `isTransitioning`. -/
def playVideo (s : VMState) (index : Int) (loadOk : Bool) : VMState × PlayResult :=
  if s.isTransitioning || s.videoUrls.length == 0 then
    (s, .busyOrEmpty)
  else
    let s₁ := { s with
      isTransitioning := true
      currentIndex := index.tmod (s.videoUrls.length : Int) }
    if loadOk then
      let s₂ := crossfade s₁
      let s₃ := (updatePreloadQueue s₂).1
      ({ s₃ with isTransitioning := false }, .ok)
    else
      let s₂ := (handleVideoError s₁).1
      ({ s₂ with isTransitioning := false }, .loadFailed)

/-- `playNext()` (lines 4110-4113). -/
def playNext (s : VMState) (loadOk : Bool) : VMState × PlayResult :=
  playVideo s ((s.currentIndex + 1).tmod (s.videoUrls.length : Int)) loadOk

/-- `playPrevious()` (lines 4118-4121). -/
def playPrevious (s : VMState) (loadOk : Bool) : VMState × PlayResult :=
  playVideo s ((s.currentIndex - 1 + (s.videoUrls.length : Int)).tmod
    (s.videoUrls.length : Int)) loadOk

/-- `playRandom()` (lines 4126-4129); `j` is the oracle for
`Math.floor(Math.random() * length)`. -/
def playRandom (s : VMState) (j : Nat) (loadOk : Bool) : VMState × PlayResult :=
  playVideo s ((j % s.videoUrls.length : Nat) : Int) loadOk

/-- `retryCurrentVideo()` (lines 4098-4105): replay the current index; the
`playVideo` promise rejects only on its busy/empty guard, in which case the
`catch` block awaits `playNext()`. -/
def retryCurrentVideo (s : VMState) (loadOk : Bool) : VMState :=
  let r := playVideo s s.currentIndex loadOk
  match r.2 with
  | .busyOrEmpty => (playNext r.1 loadOk).1
  | _ => r.1

/-- Firing of the retry timer scheduled by `handleVideoError` (lines
4087-4091): the retry runs only when no transition is in progress. -/
def retryTimerFired (s : VMState) (loadOk : Bool) : VMState :=
  if s.isTransitioning then s else retryCurrentVideo s loadOk

/-- `handleVideoError` as invoked from the media-element `error` event (line
3788), where the forced `playNext()` actually executes. -/
def handleVideoErrorEvent (s : VMState) (loadOk : Bool) : VMState :=
  let es := handleVideoError s
  match es.2 with
  | .forceNext => (playNext es.1 loadOk).1
  | .scheduleRetry _ => es.1

/-- `destroy()` (lines 4226-4245): discard every cached handle and every
pending load; the listener table and the media elements are outside this
state.  Note that `errorCount` is not touched. -/
def destroy (s : VMState) : VMState :=
  { s with preloadedVideos := [], loadingPromises := [] }

/-- A subscriber registered through `on(event, callback)`; `run` returns
`Except.error` when the callback throws. -/
structure Listener (P E : Type) where
  id : Nat
  run : P → Except E Unit

/-- Body of `emit(event, data)` (lines 4210-4221): call every listener in
registration order with the payload, catching (and collecting, for the
`console.error` log) anything a callback throws.  Returns the invocations
`(id, payload)` in order, paired with the caught errors. -/
def emitRun {P E : Type} (listeners : List (Listener P E)) (payload : P) :
    List (Nat × P) × List E :=
  match listeners with
  | [] => ([], [])
  | cb :: rest =>
    let tail := emitRun rest payload
    match cb.run payload with
    | .ok _ => ((cb.id, payload) :: tail.1, tail.2)
    | .error e => ((cb.id, payload) :: tail.1, e :: tail.2)

/-- Oracle for `Math.random` choices that always picks 0. -/
def jsZero : Nat → Nat := fun _ => 0

/-- A small desktop-configured scheduler state: three-URL shuffled playlist,
cursor on index 0, idle. -/
def stateA : VMState :=
  { config := defaultConfig false
    videoUrls := ["https://v/a.mp4", "https://v/b.mp4", "https://v/c.mp4"]
    currentIndex := 0
    activeVideoElement := .A
    inactiveVideoElement := .B
    isTransitioning := false
    preloadedVideos := []
    loadingPromises := []
    errorCount := 0 }

/-- `stateA` in the middle of a crossfade. -/
def stateBusy : VMState :=
  { stateA with isTransitioning := true }

/-- `stateA` after ten playback failures (at the error ceiling). -/
def stateErr10 : VMState :=
  { stateA with errorCount := 10 }

/-- `stateA` with the next playlist entry already cached. -/
def stateCache : VMState :=
  { stateA with preloadedVideos := ["https://v/b.mp4"] }

/-- A reachable state with a duplicated playlist URL: buffer size 1, playlist
`[a, b, a, c]`, cursor on index 2 (the second copy of `a`), and `a` cached
from the preload started while the cursor was on index 1. -/
def stateDup : VMState :=
  { config := { defaultConfig false with preloadBufferSize := 1 }
    videoUrls := ["https://v/a.mp4", "https://v/b.mp4", "https://v/a.mp4", "https://v/c.mp4"]
    currentIndex := 2
    activeVideoElement := .A
    inactiveVideoElement := .B
    isTransitioning := false
    preloadedVideos := ["https://v/a.mp4"]
    loadingPromises := []
    errorCount := 0 }

/-! ### Helper lemmas -/

theorem length_beq_zero_eq_false {α : Type} (l : List α) (h : l ≠ []) :
    (l.length == 0) = false := by
  simp [List.length_eq_zero, h]

theorem playVideo_guard_false (s : VMState) (h1 : s.isTransitioning = false)
    (h2 : s.videoUrls ≠ []) :
    (s.isTransitioning || s.videoUrls.length == 0) = false := by
  simp [h1, length_beq_zero_eq_false _ h2]

/-! ### Claim theorems -/

/-- Claim C6 (confirmed): while `isTransitioning` is true, `playNext()` and
`playPrevious()` reject at `playVideo`'s guard and return the state entirely
unchanged — in particular `currentIndex` and the active/inactive slot
assignment are untouched and the command is dropped, not queued. -/
theorem transitioning_nav_noop (s : VMState) (o : Bool)
    (h : s.isTransitioning = true) :
    playNext s o = (s, .busyOrEmpty) ∧ playPrevious s o = (s, .busyOrEmpty) := by
  unfold playNext playPrevious playVideo
  rw [h]
  simp

theorem transitioning_nav_noop_witness :
    playNext stateBusy true = (stateBusy, .busyOrEmpty) ∧
    playPrevious stateBusy true = (stateBusy, .busyOrEmpty) :=
  transitioning_nav_noop stateBusy true rfl

/-- Claim C10 (confirmed): a `playVideo` call entered outside a transition
always settles with `isTransitioning` false — the guard path never sets the
flag, and the `finally` block clears it on the success path and on every
failure path alike, so a failed transition cannot leave the flag stuck. -/
theorem playVideo_clears_transition_flag (s : VMState) (i : Int) (o : Bool)
    (h : s.isTransitioning = false) :
    (playVideo s i o).1.isTransitioning = false := by
  unfold playVideo
  rw [h]
  simp only [Bool.false_or]
  split
  · exact h
  · split <;> rfl

theorem playVideo_clears_transition_flag_witness :
    (playVideo stateA 0 true).1.isTransitioning = false ∧
    (playVideo stateA 0 false).1.isTransitioning = false :=
  ⟨playVideo_clears_transition_flag stateA 0 true rfl,
   playVideo_clears_transition_flag stateA 0 false rfl⟩

/-- Claim C1 (counterexample): `playVideo(-1)` on a 3-entry playlist resolves
successfully yet leaves `currentIndex = -1`, not the mathematical
`(-1) mod 3 = 2`, and the resulting index is negative — JavaScript `%` is a
truncated remainder, not a non-negative modulo. -/
theorem playVideo_negative_index_cex :
    (playVideo stateA (-1) true).2 = .ok ∧
    (playVideo stateA (-1) true).1.currentIndex = -1 ∧
    (-1 : Int).emod (stateA.videoUrls.length : Int) = 2 ∧
    (playVideo stateA (-1) true).1.currentIndex ≠
      (-1 : Int).emod (stateA.videoUrls.length : Int) ∧
    ¬ (0 ≤ (playVideo stateA (-1) true).1.currentIndex) := by
  decide

/-- Claim C1 (amended): a `playVideo i` call that passes the guard sets the
playing index to the JavaScript truncated remainder `i % length`
(`Int.tmod`); for `i ≥ 0` this coincides with the mathematical modulo and the
resulting index lies in `[0, length)`, but for negative `i` that is not a
multiple of the length the result is negative. -/
theorem playVideo_jsRemainder_index (s : VMState) (i : Int)
    (h1 : s.isTransitioning = false) (h2 : s.videoUrls ≠ []) :
    (playVideo s i true).1.currentIndex = i.tmod (s.videoUrls.length : Int) ∧
    (0 ≤ i →
      (playVideo s i true).1.currentIndex = i.emod (s.videoUrls.length : Int) ∧
      0 ≤ (playVideo s i true).1.currentIndex ∧
      (playVideo s i true).1.currentIndex < (s.videoUrls.length : Int)) := by
  have hg := playVideo_guard_false s h1 h2
  have hlen : (0 : Int) < (s.videoUrls.length : Int) := by
    exact_mod_cast List.length_pos.mpr h2
  have hcur : (playVideo s i true).1.currentIndex = i.tmod (s.videoUrls.length : Int) := by
    unfold playVideo
    rw [hg]
    simp [crossfade, updatePreloadQueue, cleanupPreloadQueue]
  refine ⟨hcur, fun hi => ?_⟩
  have hmod : i.tmod (s.videoUrls.length : Int) = i.emod (s.videoUrls.length : Int) :=
    Int.tmod_eq_emod hi (le_of_lt hlen)
  refine ⟨hcur.trans hmod, ?_, ?_⟩
  · rw [hcur, hmod]
    exact Int.emod_nonneg i (by omega)
  · rw [hcur, hmod]
    exact Int.emod_lt_of_pos i hlen

theorem playVideo_jsRemainder_index_witness :
    (playVideo stateA 4 true).1.currentIndex = (4 : Int).tmod 3 ∧
    (playVideo stateA 4 true).1.currentIndex = 1 :=
  ⟨(playVideo_jsRemainder_index stateA 4 rfl (by decide)).1, by decide⟩

/-- Claim C2 (counterexample): from an idle state with `currentIndex = 0`, a
failing `playVideo 1` (load error on the inactive slot) leaves
`currentIndex = 1`: the cursor was moved to the target index before the load
and is not restored on failure. -/
theorem playVideo_failure_cursor_cex :
    stateA.currentIndex = 0 ∧
    (playVideo stateA 1 false).2 = .loadFailed ∧
    (playVideo stateA 1 false).1.currentIndex = 1 ∧
    (playVideo stateA 1 false).1.currentIndex ≠ stateA.currentIndex := by
  decide

/-- Claim C2 (amended): when `playVideo index` passes the guard and the load
then fails, the cursor has already been advanced to `index % length`
(JavaScript remainder) and is not rolled back; only the slot assignment is
left unchanged.  The cursor therefore differs from its pre-call value
whenever `index % length` does. -/
theorem playVideo_failure_cursor (s : VMState) (i : Int)
    (h1 : s.isTransitioning = false) (h2 : s.videoUrls ≠ []) :
    (playVideo s i false).2 = .loadFailed ∧
    (playVideo s i false).1.currentIndex = i.tmod (s.videoUrls.length : Int) ∧
    (playVideo s i false).1.activeVideoElement = s.activeVideoElement ∧
    (playVideo s i false).1.inactiveVideoElement = s.inactiveVideoElement := by
  have hg := playVideo_guard_false s h1 h2
  unfold playVideo
  rw [hg]
  by_cases hc : maxErrors < s.errorCount + 1 <;> simp [handleVideoError, hc]

theorem playVideo_failure_cursor_witness :
    (playVideo stateA 2 false).2 = .loadFailed ∧
    (playVideo stateA 2 false).1.currentIndex = (2 : Int).tmod 3 :=
  ⟨(playVideo_failure_cursor stateA 2 rfl (by decide)).1,
   (playVideo_failure_cursor stateA 2 rfl (by decide)).2.1⟩

/-- Claim C9 (confirmed): `emit` runs every registered callback in
registration order (`on` pushes to the end of the per-event list) with the
emitted payload; the per-callback `try`/`catch` means a throwing subscriber
(`run` returning `Except.error`) never prevents any later subscriber from
being invoked with the same payload. -/
theorem emit_invokes_all_subscribers {P E : Type} (ls : List (Listener P E)) (p : P) :
    (emitRun ls p).1 = ls.map (fun cb => (cb.id, p)) := by
  induction ls with
  | nil => rfl
  | cons cb rest ih =>
    unfold emitRun
    cases cb.run p <;> simp [ih]

/-- Claim C7 (confirmed): a successful `playVideo` swaps the active and
inactive slot identities exactly once, and the completion step of
`crossfade()` is the only state operation that changes them: the failure path
of `playVideo`, `handleVideoError`, the preload-queue operations,
`finishPreload` and `destroy` all leave the slot assignment unchanged. -/
theorem crossfade_swap_only (s : VMState) (i : Int) (u : String) (b : Bool)
    (h1 : s.isTransitioning = false) (h2 : s.videoUrls ≠ []) :
    ((playVideo s i true).2 = .ok ∧
     (playVideo s i true).1.activeVideoElement = s.inactiveVideoElement ∧
     (playVideo s i true).1.inactiveVideoElement = s.activeVideoElement) ∧
    ((crossfade s).activeVideoElement = s.inactiveVideoElement ∧
     (crossfade s).inactiveVideoElement = s.activeVideoElement) ∧
    ((playVideo s i false).1.activeVideoElement = s.activeVideoElement ∧
     (playVideo s i false).1.inactiveVideoElement = s.inactiveVideoElement) ∧
    ((handleVideoError s).1.activeVideoElement = s.activeVideoElement ∧
     (handleVideoError s).1.inactiveVideoElement = s.inactiveVideoElement) ∧
    (((updatePreloadQueue s).1).activeVideoElement = s.activeVideoElement ∧
     ((updatePreloadQueue s).1).inactiveVideoElement = s.inactiveVideoElement) ∧
    ((cleanupPreloadQueue s).activeVideoElement = s.activeVideoElement ∧
     (cleanupPreloadQueue s).inactiveVideoElement = s.inactiveVideoElement) ∧
    ((finishPreload s u b).activeVideoElement = s.activeVideoElement ∧
     (finishPreload s u b).inactiveVideoElement = s.inactiveVideoElement) ∧
    ((destroy s).activeVideoElement = s.activeVideoElement ∧
     (destroy s).inactiveVideoElement = s.inactiveVideoElement) := by
  have hg := playVideo_guard_false s h1 h2
  refine ⟨?_, ⟨rfl, rfl⟩, ?_, ?_, ?_, ⟨rfl, rfl⟩, ?_, ⟨rfl, rfl⟩⟩
  · unfold playVideo
    rw [hg]
    simp [crossfade, updatePreloadQueue, cleanupPreloadQueue]
  · unfold playVideo
    rw [hg]
    by_cases hc : maxErrors < s.errorCount + 1 <;> simp [handleVideoError, hc]
  · by_cases hc : maxErrors < s.errorCount + 1 <;> simp [handleVideoError, hc]
  · simp [updatePreloadQueue, cleanupPreloadQueue]
  · by_cases hb : b <;> simp [finishPreload, hb]

theorem crossfade_swap_only_witness :
    (playVideo stateA 1 true).2 = .ok ∧
    (playVideo stateA 1 true).1.activeVideoElement = Slot.B ∧
    (playVideo stateA 1 true).1.inactiveVideoElement = Slot.A ∧
    (playVideo stateA 1 false).1.activeVideoElement = Slot.A :=
  ⟨(crossfade_swap_only stateA 1 ("u") true rfl (by decide)).1.1,
   (crossfade_swap_only stateA 1 ("u") true rfl (by decide)).1.2.1,
   (crossfade_swap_only stateA 1 ("u") true rfl (by decide)).1.2.2,
   (crossfade_swap_only stateA 1 ("u") true rfl (by decide)).2.2.1.1⟩

theorem errorCount_le_playVideo (s : VMState) (i : Int) (o : Bool) :
    s.errorCount ≤ (playVideo s i o).1.errorCount := by
  unfold playVideo
  split
  · exact Nat.le_refl _
  · split
    · simp [crossfade, updatePreloadQueue, cleanupPreloadQueue]
    · by_cases hc : maxErrors < s.errorCount + 1 <;>
        simp [handleVideoError, hc]

theorem errorCount_le_playNext (s : VMState) (o : Bool) :
    s.errorCount ≤ (playNext s o).1.errorCount :=
  errorCount_le_playVideo s _ o

/-- Claim C4 (confirmed): `handleVideoError` increments the error counter by
exactly one and no modelled operation ever decreases it (`destroy` included);
with the fixed ceiling `maxErrors = 10`, the call forces `playNext()`
(`ErrorAction.forceNext`) exactly when the incremented count exceeds 10 —
that is, on the 11th and every later failure — and otherwise schedules a
retry of the current index after `config.retryDelay` milliseconds (default
1000); a scheduled retry that fires during a transition does nothing. -/
theorem handleVideoError_policy (s : VMState) (i : Int) (o b : Bool)
    (u : String) (j : Nat) :
    (handleVideoError s).1.errorCount = s.errorCount + 1 ∧
    maxErrors = 10 ∧
    ((handleVideoError s).2 = .forceNext ↔ 10 < s.errorCount + 1) ∧
    (s.errorCount + 1 ≤ 10 →
      (handleVideoError s).2 = .scheduleRetry s.config.retryDelay) ∧
    (defaultConfig b).retryDelay = 1000 ∧
    (s.isTransitioning = true → retryTimerFired s o = s) ∧
    s.errorCount ≤ (playVideo s i o).1.errorCount ∧
    s.errorCount ≤ (playNext s o).1.errorCount ∧
    s.errorCount ≤ (playPrevious s o).1.errorCount ∧
    s.errorCount ≤ (playRandom s j o).1.errorCount ∧
    s.errorCount ≤ (retryTimerFired s o).errorCount ∧
    s.errorCount ≤ (handleVideoErrorEvent s o).errorCount ∧
    ((updatePreloadQueue s).1).errorCount = s.errorCount ∧
    (cleanupPreloadQueue s).errorCount = s.errorCount ∧
    (finishPreload s u b).errorCount = s.errorCount ∧
    (crossfade s).errorCount = s.errorCount ∧
    (destroy s).errorCount = s.errorCount := by
  have hinc : (handleVideoError s).1.errorCount = s.errorCount + 1 := by
    by_cases hc : maxErrors < s.errorCount + 1 <;> simp [handleVideoError, hc]
  refine ⟨hinc, rfl, ?_, ?_, rfl, ?_, errorCount_le_playVideo s i o,
    errorCount_le_playNext s o, errorCount_le_playVideo s _ o,
    errorCount_le_playVideo s _ o, ?_, ?_, ?_, ?_, ?_, rfl, rfl⟩
  · by_cases hc : maxErrors < s.errorCount + 1 <;> simp [handleVideoError, hc]
    · exact hc
    · simp [maxErrors] at hc
      omega
  · intro hle
    have hc : ¬ maxErrors < s.errorCount + 1 := by simp [maxErrors]; omega
    simp [handleVideoError, hc]
  · intro ht
    simp [retryTimerFired, ht]
  · unfold retryTimerFired
    split
    · exact Nat.le_refl _
    · unfold retryCurrentVideo
      have h1 := errorCount_le_playVideo s s.currentIndex o
      cases hr : (playVideo s s.currentIndex o).2 <;> simp [hr]
      · exact h1
      · exact le_trans h1 (errorCount_le_playNext _ o)
      · exact h1
  · unfold handleVideoErrorEvent
    have h1 : s.errorCount ≤ (handleVideoError s).1.errorCount := by
      rw [hinc]; omega
    cases ha : (handleVideoError s).2 <;> simp [ha]
    · exact le_trans h1 (errorCount_le_playNext _ o)
    · exact h1
  · simp [updatePreloadQueue, cleanupPreloadQueue]
  · simp [cleanupPreloadQueue]
  · by_cases hb : b <;> simp [finishPreload, hb]

theorem handleVideoError_policy_witness :
    (handleVideoError stateA).1.errorCount = 1 ∧
    (handleVideoError stateErr10).2 = .forceNext ∧
    (handleVideoError stateA).2 = .scheduleRetry 1000 ∧
    retryTimerFired stateBusy true = stateBusy := by
  have hA := handleVideoError_policy stateA 0 true true ("u") 0
  have hE := handleVideoError_policy stateErr10 0 true true ("u") 0
  refine ⟨hA.1, hE.2.2.1.mpr (by decide), ?_, ?_⟩
  · have := hA.2.2.2.1 (by decide)
    simpa using this
  · exact (handleVideoError_policy stateBusy 0 true true ("u") 0).2.2.2.2.2.1 rfl

/-- Claim C5 (counterexample): an input containing one valid and one invalid
URL is accepted, and the stored playlist is the single valid entry — not a
permutation of the two-element input, because `setVideoUrls` filters invalid
entries instead of keeping or rejecting them.  (The host `new URL` likewise
throws on `"not a url"` and accepts the absolute URL, so the stand-in oracle
agrees with it here.) -/
theorem setVideoUrls_filters_invalid_cex :
    (setVideoUrls urlParses jsZero ["https://example.com/a.mp4", "not a url"]).toOption =
      some ["https://example.com/a.mp4"] ∧
    ¬ (["https://example.com/a.mp4"] : List String).Perm
      ["https://example.com/a.mp4", "not a url"] := by
  decide

/-- Claim C5 (amended): for every non-empty input list all of whose entries
are non-blank and accepted by the URL parser, `setVideoUrls` succeeds and the
stored playlist is a permutation of the input — the Fisher-Yates shuffle
neither adds nor drops entries.  Entries rejected by the validator, however,
are silently filtered out, so for inputs with invalid entries the playlist is
a permutation of the valid subsequence only. -/
theorem setVideoUrls_perm_of_valid (parses : String → Bool) (js : Nat → Nat)
    (urls : List String) (h1 : urls ≠ [])
    (h2 : ∀ u ∈ urls, jsTrimmedEmpty u = false ∧ parses u = true) :
    ∃ l, setVideoUrls parses js urls = .ok l ∧ l.Perm urls := by
  have hfilter : urls.filter (fun u => !(jsTrimmedEmpty u) && parses u) = urls := by
    rw [List.filter_eq_self]
    intro u hu
    simp [(h2 u hu).1, (h2 u hu).2]
  unfold setVideoUrls
  rw [length_beq_zero_eq_false urls h1]
  simp only [hfilter, length_beq_zero_eq_false urls h1]
  exact ⟨_, rfl, ArrayUtils.shuffle_perm js urls⟩

theorem setVideoUrls_perm_of_valid_witness :
    ∃ l, setVideoUrls urlParses jsZero ["https://v/a.mp4", "https://v/b.mp4"] = .ok l ∧
      l.Perm ["https://v/a.mp4", "https://v/b.mp4"] :=
  setVideoUrls_perm_of_valid urlParses jsZero _ (by decide) (by decide)

/-- Claim C8 (counterexample): an input with one syntactically invalid entry
does not make initialization fail — `setVideoUrls` proceeds with the reduced
one-entry playlist.  (The host `new URL` also rejects
`"definitely not a URL"`, so the stand-in agrees with it here.) -/
theorem setVideoUrls_reduced_playlist_cex :
    urlParses ("definitely not a URL") = false ∧
    (setVideoUrls urlParses jsZero
      ["https://ok.example/v.mp4", "definitely not a URL"]).toOption =
      some ["https://ok.example/v.mp4"] := by
  decide

/-- Claim C8 (amended): `setVideoUrls` throws exactly when the input list is
empty or contains no valid entry at all; an input with at least one valid
entry is accepted, with the invalid entries silently dropped rather than
failing initialization. -/
theorem setVideoUrls_error_iff (parses : String → Bool) (js : Nat → Nat)
    (urls : List String) :
    (∃ e, setVideoUrls parses js urls = .error e) ↔
      (urls = [] ∨ urls.filter (fun u => !(jsTrimmedEmpty u) && parses u) = []) := by
  unfold setVideoUrls
  by_cases h1 : urls.length = 0
  · have : urls = [] := List.length_eq_zero.mp h1
    simp [this]
  · have hne : urls ≠ [] := fun h => h1 (by simp [h])
    rw [length_beq_zero_eq_false urls hne]
    simp only [Bool.false_eq_true, if_false]
    by_cases h2 : (urls.filter (fun u => !(jsTrimmedEmpty u) && parses u)).length = 0
    · have h2' : urls.filter (fun u => !(jsTrimmedEmpty u) && parses u) = [] :=
        List.length_eq_zero.mp h2
      simp [h2', hne]
    · have hne2 : urls.filter (fun u => !(jsTrimmedEmpty u) && parses u) ≠ [] :=
        fun h => h2 (by simp [h])
      rw [length_beq_zero_eq_false _ hne2]
      simp [hne, hne2]

theorem jsIndexOf_get_of_nodup :
    ∀ (l : List String), l.Nodup → ∀ (i : Nat) (h : i < l.length),
      jsIndexOf l (l.get ⟨i, h⟩) = (i : Int) := by
  intro l
  induction l with
  | nil => intro _ i h; simp at h
  | cons a t ih =>
    intro hn i h
    cases i with
    | zero => simp [jsIndexOf]
    | succ k =>
      have hk : k < t.length := by simpa using h
      have hmem : t.get ⟨k, hk⟩ ∈ t := List.get_mem t k hk
      have hne : (a == t.get ⟨k, hk⟩) = false := by
        rw [beq_eq_false_iff_ne]
        intro e
        exact (List.nodup_cons.mp hn).1 (e ▸ hmem)
      have hgt : (a :: t).get ⟨k + 1, h⟩ = t.get ⟨k, hk⟩ := rfl
      rw [hgt]
      simp only [jsIndexOf, hne, Bool.false_eq_true, if_false]
      rw [ih (List.nodup_cons.mp hn).2 k hk]
      have hk0 : ¬ ((k : Int) < 0) := by omega
      simp only [hk0, if_false]
      push_cast
      ring

/-- Claim C3 (counterexample): a reachable state with a duplicated playlist
URL where `updatePreloadQueue()` retains a cache entry at wrapped forward
distance 2 although `preloadBufferSize` is 1: the entry's URL equals the
current URL (`videoUrls[2]`), which the cleanup loop exempts from eviction,
while `indexOf` finds its first occurrence at index 0. -/
theorem updatePreloadQueue_window_cex :
    ((updatePreloadQueue stateDup).1).preloadedVideos = ["https://v/a.mp4"] ∧
    stateDup.config.preloadBufferSize = 1 ∧
    preloadDistance ((updatePreloadQueue stateDup).1) ("https://v/a.mp4") = 2 ∧
    ¬ (preloadDistance ((updatePreloadQueue stateDup).1) ("https://v/a.mp4") ≤
        (((updatePreloadQueue stateDup).1).config.preloadBufferSize : Int)) := by
  decide

/-- Claim C3 (amended): whenever the playlist URLs are pairwise distinct and
the cursor is in range, `updatePreloadQueue()` leaves no cache entry whose
wrapped forward distance from the cursor exceeds `preloadBufferSize`; with
duplicated playlist URLs the current URL's own entry is exempt from eviction
and its first-occurrence distance may exceed the buffer size. -/
theorem updatePreloadQueue_window_of_nodup (s : VMState)
    (hnd : s.videoUrls.Nodup) (h0 : 0 ≤ s.currentIndex)
    (h1 : s.currentIndex < (s.videoUrls.length : Int)) :
    ∀ u ∈ ((updatePreloadQueue s).1).preloadedVideos,
      preloadDistance ((updatePreloadQueue s).1) u ≤
        (((updatePreloadQueue s).1).config.preloadBufferSize : Int) := by
  intro u hu
  have hmem : u ∈ (cleanupPreloadQueue s).preloadedVideos := by
    simpa [updatePreloadQueue] using hu
  have hdist : preloadDistance ((updatePreloadQueue s).1) u = preloadDistance s u := by
    simp [updatePreloadQueue, cleanupPreloadQueue, preloadDistance, wrappedDistance]
  have hcfg : ((updatePreloadQueue s).1).config = s.config := by
    simp [updatePreloadQueue, cleanupPreloadQueue]
  rw [hdist, hcfg]
  simp only [cleanupPreloadQueue, List.mem_filter] at hmem
  obtain ⟨-, hcond⟩ := hmem
  rw [Bool.not_eq_true', decide_eq_false_iff_not] at hcond
  push_neg at hcond
  by_cases hlt : (s.config.preloadBufferSize : Int) < preloadDistance s u
  · have hcu : jsGetElem s.videoUrls s.currentIndex = some u := hcond hlt
    have hc2 : ((s.currentIndex.toNat : Nat) : Int) = s.currentIndex :=
      Int.toNat_of_nonneg h0
    have hidx : s.currentIndex.toNat < s.videoUrls.length := by omega
    have hget : s.videoUrls.get ⟨s.currentIndex.toNat, hidx⟩ = u := by
      unfold jsGetElem at hcu
      rw [dif_pos ⟨h0, hidx⟩] at hcu
      exact Option.some.inj hcu
    have hfound := jsIndexOf_get_of_nodup s.videoUrls hnd s.currentIndex.toNat hidx
    rw [hget] at hfound
    have hzero : preloadDistance s u = 0 := by
      unfold preloadDistance wrappedDistance
      rw [hfound, hc2]
      simp
    omega
  · omega

theorem updatePreloadQueue_window_of_nodup_witness :
    preloadDistance ((updatePreloadQueue stateCache).1) ("https://v/b.mp4") ≤
      (((updatePreloadQueue stateCache).1).config.preloadBufferSize : Int) :=
  updatePreloadQueue_window_of_nodup stateCache (by decide) (by decide) (by decide)
    ("https://v/b.mp4") (by decide)

end VideoManager

end DreamsAndPoems
